import Mathlib

/-
  A shallow embedding of the connection-routing and backend-lifecycle core
  of df-mc/prmanager (listener.go, docker.go), with theorems settling the
  specification's claims about it.

  Addresses and identifiers are modelled as lists of characters (the data
  of the Go strings).  The Docker daemon is modelled as an environment of
  responses; the side effects of handling a connection (driver calls,
  activity updates) are recorded explicitly.
-/

/-- Response of a Docker driver call (`ServerPort` / `StartServer` in
docker.go): an error, no container found, or a found public port. -/
inductive DriverResp where
  | fail
  | absent
  | found (port : Nat)
deriving DecidableEq

/-- Environment one connection is handled against: whether the on-disk
directory `pr-<id>` exists (the `os.Stat` check in listener.go), and the
outcomes of `docker.ServerPort` and `docker.StartServer` for each
identifier. -/
structure Env where
  prExists : List Char → Bool
  serverPort : List Char → DriverResp
  startServer : List Char → DriverResp

/-- Side effects of handling one connection: the identifiers passed to
`docker.ServerPort`, those passed to `docker.StartServer`, and those whose
`lastConnections` entry was set (listener.go line 119). -/
structure Effects where
  serverPortCalls : List (List Char)
  startCalls : List (List Char)
  touched : List (List Char)
deriving DecidableEq

/-- Final observable action of `handleConnection` on a session: one of its
disconnect messages, or the `packet.Transfer` redirect carrying a target
host and port (listener.go lines 134-139). -/
inductive Outcome where
  | disconnectFailStartGame
  | disconnectInvalidPR
  | disconnectPortQueryFail
  | disconnectStartFail
  | disconnectServerNotFound
  | disconnectInvalidAddress
  | disconnectNoTargetPort
  | redirect (host : String) (port : Nat)
deriving DecidableEq

/-- The host portion of the requested address:
`strings.Split(c.ClientData().ServerAddress, ":")[0]` (listener.go
line 77). -/
def hostPart (serverAddress : List Char) : List Char :=
  serverAddress.takeWhile (fun c => c ≠ ':')

/-- The literal suffix of the pull-request address pattern
`^(\d+)\.df-mc\.dev$` (listener.go line 85). -/
def prSuffix : List Char := ".df-mc.dev".data

/-- Whole-string match of the Go regular expression `^(\d+)\.df-mc\.dev$`
(listener.go lines 85-86): the address matches exactly when it is a
nonempty digit sequence followed by the literal ".df-mc.dev", and the
capture group `matches[1]` is that digit sequence. -/
def matchPRAddr (addr : List Char) : Option (List Char) :=
  if addr.drop (addr.length - prSuffix.length) = prSuffix ∧
      addr.take (addr.length - prSuffix.length) ≠ [] ∧
      (addr.take (addr.length - prSuffix.length)).all Char.isDigit then
    some (addr.take (addr.length - prSuffix.length))
  else none

/-- The fixed-hostname table of `handleConnection` (listener.go lines
78-83): "df-mc.dev" and "188.166.78.44" map to port 19133, and
"plots.df-mc.dev" maps to port 19134. -/
def fixedPort (addr : List Char) : Option Nat :=
  if addr = "df-mc.dev".data ∨ addr = "188.166.78.44".data then some 19133
  else if addr = "plots.df-mc.dev".data then some 19134
  else none

/-- The final zero-port guard and redirect of `handleConnection`
(listener.go lines 127-139): a zero target port disconnects the session,
and any other port is sent in a `Transfer` packet whose address is the
constant "df-mc.dev". -/
def targetOutcome (port : Nat) (eff : Effects) : Outcome × Effects :=
  if port = 0 then (.disconnectNoTargetPort, eff)
  else (.redirect "df-mc.dev" port, eff)

/-- The routing chain of `handleConnection` on the extracted host
(listener.go lines 78-139): the fixed-hostname table first, then the
pull-request pattern with the `os.Stat` check, the `ServerPort` query, the
`StartServer` fallback, the `lastConnections` update, and the final
redirect.  Note that on the dynamic path the `lastConnections` update
(line 119) happens before the zero-port guard. -/
def routeAddr (env : Env) (addr : List Char) : Outcome × Effects :=
  if addr = "df-mc.dev".data ∨ addr = "188.166.78.44".data then
    targetOutcome 19133 ⟨[], [], []⟩
  else if addr = "plots.df-mc.dev".data then
    targetOutcome 19134 ⟨[], [], []⟩
  else
    match matchPRAddr addr with
    | some pr =>
      if env.prExists pr = false then (.disconnectInvalidPR, ⟨[], [], []⟩)
      else
        match env.serverPort pr with
        | .fail => (.disconnectPortQueryFail, ⟨[pr], [], []⟩)
        | .found port => targetOutcome port ⟨[pr], [], [pr]⟩
        | .absent =>
          match env.startServer pr with
          | .fail => (.disconnectStartFail, ⟨[pr], [pr], []⟩)
          | .absent => (.disconnectServerNotFound, ⟨[pr], [pr], []⟩)
          | .found port => targetOutcome port ⟨[pr], [pr], [pr]⟩
    | none => (.disconnectInvalidAddress, ⟨[], [], []⟩)

/-- `Listener.handleConnection` (listener.go lines 57-140) from the point
the connection is accepted: the `StartGame` handshake (its success given
as a boolean), then the routing chain on the host portion of the requested
address. -/
def handleConnection (env : Env) (startGameOk : Bool) (serverAddress : List Char) :
    Outcome × Effects :=
  if startGameOk = false then (.disconnectFailStartGame, ⟨[], [], []⟩)
  else routeAddr env (hostPart serverAddress)

/-- The inactivity window of the reaper, in seconds:
`time.Since(lastConn) > time.Hour` (listener.go line 148). -/
def inactivityWindow : Nat := 60 * 60

/-- The sweep period of the reaper, in seconds:
`time.NewTicker(time.Minute * 5)` (listener.go line 145). -/
def sweepPeriod : Nat := 5 * 60

/-- The `lastConnections` map of the Listener, as an association list from
identifier to last-connection timestamp in seconds. -/
abbrev ActivityMap := List (List Char × Nat)

/-- The map write `l.lastConnections[pr] = time.Now()` (listener.go
line 119): overwrite the entry for the identifier if present, insert it
otherwise. -/
def touch : ActivityMap → List Char → Nat → ActivityMap
  | [], pr, now => [(pr, now)]
  | e :: rest, pr, now =>
    if e.1 = pr then (pr, now) :: rest else e :: touch rest pr now

/-- Map lookup of an identifier's last-connection timestamp. -/
def lookupLast : ActivityMap → List Char → Option Nat
  | [], _ => none
  | e :: rest, pr => if e.1 = pr then some e.2 else lookupLast rest pr

/-- The map deletion `delete(l.lastConnections, pr)` (listener.go
line 154). -/
def deleteKey (m : ActivityMap) (pr : List Char) : ActivityMap :=
  m.filter (fun e => e.1 ≠ pr)

/-- The staleness test of the reaper: `time.Since(lastConn) > time.Hour`
(listener.go line 148). -/
def stale (now t : Nat) : Bool := now - t > inactivityWindow

/-- One tick of `KillInactiveServers` (listener.go lines 147-156), run
atomically: every stale entry has `docker.StopServer` invoked on it and is
deleted from `lastConnections`.  `Docker.StopServer` (docker.go lines
84-87) discards the error of the `docker kill` command, so the tick
receives the stop outcome `stopOk` but — exactly like the code — never
consults it.  Returns the new map and the identifiers passed to
`StopServer`. -/
def killTick (stopOk : List Char → Bool) (now : Nat) (m : ActivityMap) :
    ActivityMap × List (List Char) :=
  (m.filter (fun e => stale now e.2 = false),
   (m.filter (fun e => stale now e.2)).map (fun e => e.1))

/-- Shared state of two `handleConnection` calls racing on one identifier:
whether a backend container is currently running for it, how many times
`StartServer` has been invoked, and each handler's progress.  Each handler
runs `docker.ServerPort` — a read of `running` — and then, if it saw no
container, `docker.StartServer` (listener.go lines 96-116); the program
holds no lock between the two steps (listener.go contains no mutex at
all), so the two handlers' steps may interleave freely. -/
structure RaceState where
  running : Bool
  startCount : Nat
  pc0 : Nat
  saw0 : Bool
  pc1 : Nat
  saw1 : Bool
deriving DecidableEq

/-- Both handlers are about to query, no container runs, no start has
happened. -/
def raceInit : RaceState := ⟨false, 0, 0, false, 0, false⟩

/-- One scheduler step: run the next instruction of handler 0 (`i =
false`) or handler 1 (`i = true`).  Instruction 0 is the `ServerPort`
query, instruction 1 is the found-check and, if nothing was found, the
`StartServer` call, which makes the container running. -/
def raceStep (s : RaceState) (i : Bool) : RaceState :=
  if i = false then
    if s.pc0 = 0 then { s with saw0 := s.running, pc0 := 1 }
    else if s.pc0 = 1 then
      if s.saw0 then { s with pc0 := 2 }
      else { s with startCount := s.startCount + 1, running := true, pc0 := 2 }
    else s
  else
    if s.pc1 = 0 then { s with saw1 := s.running, pc1 := 1 }
    else if s.pc1 = 1 then
      if s.saw1 then { s with pc1 := 2 }
      else { s with startCount := s.startCount + 1, running := true, pc1 := 2 }
    else s

/-- Run the two racing handlers under a schedule. -/
def raceRun (sched : List Bool) : RaceState :=
  sched.foldl raceStep raceInit

/-- A step of the unsynchronized interleaving between a connection handler
and the reaper (neither holds any lock): a handler's map write
(listener.go line 119), the reaper's staleness check on an entry it ranges
over (line 148), and the reaper's map delete (line 154), which the code
separates from the check by the slow blocking `StopServer` call
(line 150). -/
inductive TrackOp where
  | touchOp (pr : List Char) (t : Nat)
  | reapCheck (pr : List Char)
  | reapDelete (pr : List Char)

/-- Shared state of that interleaving: the `lastConnections` map, the
identifiers the reaper has judged stale but not yet deleted, and the
identifiers passed to `StopServer`. -/
structure TrackSt where
  m : ActivityMap
  pending : List (List Char)
  stops : List (List Char)
deriving DecidableEq

/-- Execute one interleaved operation on the shared state. -/
def trackStep (now : Nat) (s : TrackSt) : TrackOp → TrackSt
  | .touchOp pr t => { s with m := touch s.m pr t }
  | .reapCheck pr =>
    match lookupLast s.m pr with
    | some t =>
      if stale now t then { s with pending := pr :: s.pending, stops := pr :: s.stops }
      else s
    | none => s
  | .reapDelete pr =>
    if s.pending.contains pr then
      { s with m := deleteKey s.m pr, pending := s.pending.erase pr }
    else s

/-- Execute a whole interleaving. -/
def trackRun (now : Nat) (s : TrackSt) (ops : List TrackOp) : TrackSt :=
  ops.foldl (trackStep now) s

/-- Environment in which nothing is provisioned and every driver call
fails. -/
def envNone : Env := ⟨fun _ => false, fun _ => .fail, fun _ => .fail⟩

/-- Environment in which every identifier is provisioned and already
running on port 32768. -/
def envUp : Env := ⟨fun _ => true, fun _ => .found 32768, fun _ => .fail⟩

/-- Environment in which every identifier is provisioned but not running,
and starting it succeeds on port 20001. -/
def envStart : Env := ⟨fun _ => true, fun _ => .absent, fun _ => .found 20001⟩

/-- Helper: whenever the zero-port guard lets a redirect through, the
redirect's host is the constant "df-mc.dev", its port is the computed
target port, and that port is nonzero. -/
theorem targetOutcome_redirect (port : Nat) (eff : Effects) (host : String) (q : Nat)
    (h : (targetOutcome port eff).1 = .redirect host q) :
    host = "df-mc.dev" ∧ q = port ∧ port ≠ 0 := by
  unfold targetOutcome at h
  split at h
  · simp at h
  next hp =>
    simp only [Outcome.redirect.injEq] at h
    exact ⟨h.1.symm, h.2.symm, hp⟩

/-- Claim C9: every redirect sent by `handleConnection` carries the
constant target host "df-mc.dev", whatever address the client originally
requested; only the port varies. -/
theorem redirect_host_constant (env : Env) (ok : Bool) (sa : List Char)
    (host : String) (port : Nat)
    (h : (handleConnection env ok sa).1 = .redirect host port) :
    host = "df-mc.dev" := by
  unfold handleConnection routeAddr at h
  repeat' split at h
  all_goals first
    | exact (targetOutcome_redirect _ _ _ _ h).1
    | simp at h

/-- Claim C9 witness at a concrete running pull-request environment. -/
theorem redirect_host_constant_witness :
    (handleConnection envUp true "42.df-mc.dev".data).1 = .redirect "df-mc.dev" 32768 ∧
    "df-mc.dev" = "df-mc.dev" :=
  ⟨by decide, redirect_host_constant envUp true "42.df-mc.dev".data "df-mc.dev" 32768 (by decide)⟩

/-- Claim C10: `handleConnection` never sends a redirect carrying port 0 —
the zero-port guard rejects the session instead, so every redirect
actually sent carries a nonzero port. -/
theorem redirect_port_nonzero (env : Env) (ok : Bool) (sa : List Char)
    (host : String) (port : Nat)
    (h : (handleConnection env ok sa).1 = .redirect host port) :
    port ≠ 0 := by
  unfold handleConnection routeAddr at h
  repeat' split at h
  all_goals first
    | (obtain ⟨-, hq, hp⟩ := targetOutcome_redirect _ _ _ _ h; omega)
    | simp at h

/-- Claim C10 witness at a concrete freshly-started pull-request
environment. -/
theorem redirect_port_nonzero_witness :
    (handleConnection envStart true "7.df-mc.dev".data).1 = .redirect "df-mc.dev" 20001 ∧
    (20001 : Nat) ≠ 0 :=
  ⟨by decide, redirect_port_nonzero envStart true "7.df-mc.dev".data "df-mc.dev" 20001 (by decide)⟩

/-- Claim C3: an address whose host exactly matches the fixed-hostname
table is redirected to the table's configured port, with no driver call
and no activity update, in every environment — independent of registry or
activity state. -/
theorem fixed_table_route (env : Env) (sa : List Char) (p : Nat)
    (h : fixedPort (hostPart sa) = some p) :
    handleConnection env true sa = (.redirect "df-mc.dev" p, ⟨[], [], []⟩) := by
  unfold handleConnection
  rw [if_neg (by decide)]
  unfold routeAddr
  unfold fixedPort at h
  split at h
  next hc =>
    injection h with h
    subst h
    rw [if_pos hc]
    decide
  next hc =>
    split at h
    next hc2 =>
      injection h with h
      subst h
      rw [if_neg hc, if_pos hc2]
      decide
    next => simp at h

/-- Claim C3 witness at the concrete fixed hostname "plots.df-mc.dev". -/
theorem fixed_table_route_witness :
    fixedPort (hostPart "plots.df-mc.dev".data) = some 19134 ∧
    handleConnection envNone true "plots.df-mc.dev".data =
      (.redirect "df-mc.dev" 19134, ⟨[], [], []⟩) :=
  ⟨by decide, fixed_table_route envNone "plots.df-mc.dev".data 19134 (by decide)⟩

/-- Claim C4: whenever the pull-request pattern matches, the extracted
identifier equals the captured digit sequence character for character —
the address is exactly the identifier followed by ".df-mc.dev" and the
identifier is a nonempty digit string, with no numeric normalization: in
particular "007.df-mc.dev" yields "007", not "7". -/
theorem pr_capture_exact (addr pr : List Char)
    (h : matchPRAddr addr = some pr) :
    addr = pr ++ ".df-mc.dev".data ∧ pr ≠ [] ∧ pr.all Char.isDigit = true ∧
    matchPRAddr "007.df-mc.dev".data = some "007".data ∧
    matchPRAddr "007.df-mc.dev".data ≠ some "7".data := by
  unfold matchPRAddr at h
  split at h
  next hc =>
    injection h with h
    subst h
    obtain ⟨h1, h2, h3⟩ := hc
    refine ⟨?_, h2, h3, by decide, by decide⟩
    conv_lhs => rw [← List.take_append_drop (addr.length - prSuffix.length) addr]
    rw [h1]
    rfl
  next => simp at h

/-- Claim C4 witness at the concrete leading-zero address
"007.df-mc.dev". -/
theorem pr_capture_exact_witness :
    "007.df-mc.dev".data = "007".data ++ ".df-mc.dev".data :=
  (pr_capture_exact "007.df-mc.dev".data "007".data (by decide)).1

/-- Helper: an address that matches the pull-request pattern is none of
the three fixed hostnames, so the fixed table yields nothing for it. -/
theorem matchPR_not_fixed (addr pr : List Char)
    (h : matchPRAddr addr = some pr) : fixedPort addr = none := by
  unfold fixedPort
  split
  next hc =>
    rcases hc with hc | hc <;>
      (subst hc; rw [show matchPRAddr _ = none from by decide] at h; exact Option.noConfusion h)
  next =>
    split
    next hc =>
      subst hc
      rw [show matchPRAddr _ = none from by decide] at h
      exact Option.noConfusion h
    next => rfl

/-- Claim C5: an address whose host matches neither the fixed-hostname
table nor the pull-request pattern is rejected as an invalid server
address, with no driver call and no activity update, in every
environment. -/
theorem invalid_address_rejected (env : Env) (sa : List Char)
    (hfix : fixedPort (hostPart sa) = none)
    (hdyn : matchPRAddr (hostPart sa) = none) :
    handleConnection env true sa = (.disconnectInvalidAddress, ⟨[], [], []⟩) := by
  unfold handleConnection
  rw [if_neg (by decide)]
  unfold routeAddr
  unfold fixedPort at hfix
  split at hfix
  · exact Option.noConfusion hfix
  next h1 =>
    split at hfix
    · exact Option.noConfusion hfix
    next h2 =>
      rw [if_neg h1, if_neg h2, hdyn]

/-- Claim C5 witness at the concrete unknown address "example.com". -/
theorem invalid_address_rejected_witness :
    handleConnection envNone true "example.com".data =
      (.disconnectInvalidAddress, ⟨[], [], []⟩) :=
  invalid_address_rejected envNone "example.com".data (by decide) (by decide)

/-- Claim C6: a pull-request address whose on-disk directory `pr-<id>` is
missing is rejected without any Docker driver call — neither `ServerPort`
nor `StartServer` is invoked, and no activity is recorded. -/
theorem not_provisioned_rejected (env : Env) (sa pr : List Char)
    (hdyn : matchPRAddr (hostPart sa) = some pr)
    (hex : env.prExists pr = false) :
    handleConnection env true sa = (.disconnectInvalidPR, ⟨[], [], []⟩) := by
  unfold handleConnection
  rw [if_neg (by decide)]
  unfold routeAddr
  have hfix := matchPR_not_fixed _ _ hdyn
  unfold fixedPort at hfix
  split at hfix
  · exact Option.noConfusion hfix
  next h1 =>
    split at hfix
    · exact Option.noConfusion hfix
    next h2 =>
      rw [if_neg h1, if_neg h2, hdyn]
      simp only []
      rw [if_pos hex]

/-- Claim C6 witness: identifier "7" with no artifact on disk, requested
as "7.df-mc.dev". -/
theorem not_provisioned_rejected_witness :
    handleConnection envNone true "7.df-mc.dev".data =
      (.disconnectInvalidPR, ⟨[], [], []⟩) :=
  not_provisioned_rejected envNone "7.df-mc.dev".data "7".data (by decide) (by decide)

/-- Claim C1 fails on the code: two connection handlers for the same
not-yet-running identifier, each running the unlocked `ServerPort`-then-
`StartServer` sequence of `handleConnection`, can interleave so that both
queries see no container and `StartServer` runs twice — the program
contains no per-identifier lock (listener.go has no mutex at all).  Under
the serialized schedule the second handler does see the container and only
one start occurs, so it is exactly the interleaving that breaks the
claim. -/
theorem concurrent_resolve_double_start :
    (raceRun [false, true, false, true]).startCount = 2 ∧
    (raceRun [false, false, true, true]).startCount = 1 := by decide

/-- Claim C2 fails on the code: `lastConnections` is shared with no
synchronization, and the reaper's delete — separated from its staleness
check by the slow `StopServer` call — can interleave with a handler's
touch, losing the touch: identifier "3" is touched at the tick instant,
yet ends up absent from tracking.  Under the serialized order (touch
before the check) the entry survives, so it is exactly the interleaving
that loses the update. -/
theorem concurrent_touch_lost :
    (trackRun 3601 ⟨[("3".data, 0)], [], []⟩
      [.reapCheck "3".data, .touchOp "3".data 3601, .reapDelete "3".data]).m = [] ∧
    (trackRun 3601 ⟨[("3".data, 0)], [], []⟩
      [.touchOp "3".data 3601, .reapCheck "3".data, .reapDelete "3".data]).m
      = [("3".data, 3601)] := by decide

/-- Claim C7 as stated fails on the code: with identifier "1" stale and
its stop failing, the tick still removes "1" from tracking —
`Docker.StopServer` discards the command error and `KillInactiveServers`
deletes the entry unconditionally, so nothing is retried on the next
tick. -/
theorem stop_failure_still_forgets :
    (killTick (fun _ => false) 3601 [("1".data, 0)]).2 = ["1".data] ∧
    lookupLast (killTick (fun _ => false) 3601 [("1".data, 0)]).1 "1".data = none := by
  decide

/-- Claim C7 amended: on a tick, every stale identifier is passed to
`StopServer` and is removed from tracking unconditionally — the tick's
result is independent of whether the stop succeeded, so a failed stop is
not retried on a later tick. -/
theorem stale_stop_and_forget (stopOk : List Char → Bool) (now : Nat)
    (m : ActivityMap) (pr : List Char) (t : Nat)
    (hmem : (pr, t) ∈ m) (hstale : stale now t = true) :
    pr ∈ (killTick stopOk now m).2 ∧ (pr, t) ∉ (killTick stopOk now m).1 ∧
    killTick stopOk now m = killTick (fun _ => false) now m := by
  refine ⟨?_, ?_, rfl⟩
  · exact List.mem_map.2 ⟨(pr, t), List.mem_filter.2 ⟨hmem, by simpa using hstale⟩, rfl⟩
  · intro hin
    have := (List.mem_filter.1 hin).2
    simp [hstale] at this

/-- Claim C7 amended witness at a concrete stale identifier "9". -/
theorem stale_stop_and_forget_witness :
    "9".data ∈ (killTick (fun _ => true) 7201 [("9".data, 0)]).2 :=
  (stale_stop_and_forget (fun _ => true) 7201 [("9".data, 0)] "9".data 0
    (by decide) (by decide)).1

/-- Helper: after a touch, the identifier's recorded timestamp is the
touch's timestamp. -/
theorem lookup_touch (m : ActivityMap) (pr : List Char) (t : Nat) :
    lookupLast (touch m pr t) pr = some t := by
  induction m with
  | nil => simp [touch, lookupLast]
  | cons e rest ih =>
    unfold touch
    split
    next h => simp [lookupLast]
    next h => simp [lookupLast, h, ih]

/-- Helper: a touch only rewrites the touched entry or keeps entries of
the original map. -/
theorem touch_mem (m : ActivityMap) (pr : List Char) (t : Nat) (e : List Char × Nat)
    (he : e ∈ touch m pr t) : e ∈ m ∨ e = (pr, t) := by
  induction m with
  | nil =>
    simp [touch] at he
    simp [he]
  | cons a rest ih =>
    unfold touch at he
    split at he
    next h =>
      rcases List.mem_cons.1 he with h1 | h1
      · right; exact h1
      · left; exact List.mem_cons_of_mem _ h1
    next h =>
      rcases List.mem_cons.1 he with h1 | h1
      · left; simp [h1]
      · rcases ih h1 with h2 | h2
        · left; exact List.mem_cons_of_mem _ h2
        · right; exact h2

/-- Helper: a touch preserves distinctness of the map's keys (the Go map
has unique keys). -/
theorem touch_pairwise (m : ActivityMap) (pr : List Char) (t : Nat)
    (hwf : m.Pairwise (fun a b => a.1 ≠ b.1)) :
    (touch m pr t).Pairwise (fun a b => a.1 ≠ b.1) := by
  induction m with
  | nil => simp [touch]
  | cons a rest ih =>
    rw [List.pairwise_cons] at hwf
    unfold touch
    split
    next h =>
      rw [List.pairwise_cons]
      exact ⟨fun b hb => h ▸ hwf.1 b hb, hwf.2⟩
    next h =>
      rw [List.pairwise_cons]
      refine ⟨fun b hb => ?_, ih hwf.2⟩
      rcases touch_mem rest pr t b hb with h1 | h1
      · exact hwf.1 b h1
      · rw [h1]; exact h

/-- Helper: in a key-distinct map, every entry for the touched identifier
carries the touch's timestamp. -/
theorem touch_mem_val (m : ActivityMap) (pr : List Char) (t : Nat)
    (hwf : m.Pairwise (fun a b => a.1 ≠ b.1))
    (e : List Char × Nat) (he : e ∈ touch m pr t) (hk : e.1 = pr) : e.2 = t := by
  induction m with
  | nil =>
    simp [touch] at he
    rw [he]
  | cons a rest ih =>
    rw [List.pairwise_cons] at hwf
    unfold touch at he
    split at he
    next h =>
      rcases List.mem_cons.1 he with h1 | h1
      · rw [h1]
      · exact absurd hk.symm (h ▸ hwf.1 e h1)
    next h =>
      rcases List.mem_cons.1 he with h1 | h1
      · exact absurd (h1 ▸ hk) h
      · exact ih hwf.2 h1

/-- Claim C8: touches with increasing timestamps advance an identifier's
last-activity monotonically — each touch overwrites the entry with its own
timestamp — and a reaper tick never stops an identifier whose most recent
touch is within the inactivity window at the tick instant; the window is
one hour and the sweep period five minutes. -/
theorem touch_monotone_not_stale (stopOk : List Char → Bool)
    (m : ActivityMap) (pr : List Char) (t1 t2 now : Nat)
    (hwf : m.Pairwise (fun a b => a.1 ≠ b.1))
    (hle : t1 ≤ t2) (hrecent : now - t2 ≤ inactivityWindow) :
    lookupLast (touch m pr t1) pr = some t1 ∧
    lookupLast (touch (touch m pr t1) pr t2) pr = some t2 ∧
    pr ∉ (killTick stopOk now (touch (touch m pr t1) pr t2)).2 ∧
    inactivityWindow = 3600 ∧ sweepPeriod = 300 := by
  refine ⟨lookup_touch m pr t1, lookup_touch _ pr t2, ?_, rfl, rfl⟩
  intro hin
  obtain ⟨e, hef, hek⟩ := List.mem_map.1 hin
  obtain ⟨hem, hes⟩ := List.mem_filter.1 hef
  have hv : e.2 = t2 :=
    touch_mem_val (touch m pr t1) pr t2 (touch_pairwise m pr t1 hwf) e hem hek
  rw [hv] at hes
  simp [stale, inactivityWindow] at hes
  simp [inactivityWindow] at hrecent
  omega

/-- Claim C8 witness: two touches of "42" at timestamps 10 then 20, tick
at instant 100. -/
theorem touch_monotone_not_stale_witness :
    lookupLast (touch (touch [] "42".data 10) "42".data 20) "42".data = some 20 :=
  (touch_monotone_not_stale (fun _ => true) [] "42".data 10 20 100
    List.Pairwise.nil (by decide) (by decide)).2.1
